import Mathlib

/-!
Shallow embedding of the neuromorphic swarm decision engine
(crates/neuromorphic: snn/neuron.rs, snn/synapse.rs, learning/stdp.rs,
learning/reward.rs, swarm/collective.rs, swarm/decision.rs) together with
theorems checking the specified properties against the code.

Modelling conventions:
- f64 scalars that only flow through field arithmetic and comparisons are
  modelled as rationals; scalars produced by exp/sqrt are modelled as reals.
- The f64 sentinel NEG_INFINITY used for last_spike_time_ms is modelled as
  Option: none stands for negative infinity.  Where the code performs
  IEEE-754 arithmetic on the sentinel (minus infinity plus a finite number is
  minus infinity; minus infinity minus minus infinity is NaN; NaN compared
  with anything is false), the embedding makes the resulting branch explicit
  and records the IEEE-754 reasoning in a comment.
- Rust HashMap values are modelled as lists; iteration order of a map is
  arbitrary, which the permutation theorems below account for.
-/

namespace Cyber

/-! ### snn/neuron.rs -/

/-- LIFNeuron from snn/neuron.rs.  last_spike_time_ms is Option:
none models the initial value f64::NEG_INFINITY. -/
structure LIFNeuron where
  id : ℕ
  membrane_potential : ℚ
  threshold : ℚ
  rest_potential : ℚ
  leak_conductance : ℚ
  time_constant_ms : ℚ
  refractory_period_ms : ℚ
  last_spike_time_ms : Option ℚ
  deriving Repr, DecidableEq

/-- LIFNeuron::new. -/
def LIFNeuron.new (id : ℕ) : LIFNeuron where
  id := id
  membrane_potential := -7/10
  threshold := 2/10
  rest_potential := -7/10
  leak_conductance := 1/10
  time_constant_ms := 20
  refractory_period_ms := 2
  last_spike_time_ms := none

/-- LIFNeuron::integrate.  The source computes
  elapsed = self.last_spike_time_ms; now_ms = elapsed + dt_ms
and guards on (now_ms - last_spike_time_ms) < refractory_period_ms.
With last = minus infinity (none), now_ms is minus infinity and the
difference is NaN, so the guard is false (IEEE-754: NaN < r is false).
With last finite (some t), now_ms = t + dt_ms and the difference is exactly
dt_ms.  On a spike the source stores last_spike_time_ms := now_ms, which for
the none case is again minus infinity. -/
def LIFNeuron.integrate (n : LIFNeuron) (input_current_a : ℚ) (dt_ms : ℚ) :
    LIFNeuron × Bool :=
  let refractory : Bool :=
    match n.last_spike_time_ms with
    | none => false
    | some _ => decide (dt_ms < n.refractory_period_ms)
  if refractory then
    ({ n with membrane_potential := n.rest_potential - 5/100 }, false)
  else
    let driving_force := n.membrane_potential - n.rest_potential
    let leak_current := n.leak_conductance * driving_force
    let dv_dt := (-leak_current + input_current_a) / 20
    let dt_s := dt_ms / 1000
    let v := n.membrane_potential + dv_dt * dt_s
    if v > n.threshold then
      ({ n with
          membrane_potential := n.rest_potential,
          last_spike_time_ms :=
            match n.last_spike_time_ms with
            | none => none
            | some t => some (t + dt_ms) }, true)
    else
      ({ n with membrane_potential := v }, false)

/-- LIFNeuron::in_refractory, for a finite current time.  With
last_spike_time_ms = minus infinity the difference is plus infinity and the
comparison is false. -/
def LIFNeuron.in_refractory (n : LIFNeuron) (current_time_ms : ℚ) : Bool :=
  match n.last_spike_time_ms with
  | none => false
  | some t => decide (current_time_ms - t < n.refractory_period_ms)

/-- Claim C1: on the default unit (refractory period 2 ms), two successive
integrate calls with dt = 1 ms and a large input current both report a spike:
the code emits two spikes separated by 1 ms of integrated time, violating the
claimed refractory guarantee.  The refractory branch is dead for any neuron
built by LIFNeuron::new, because now_ms is reconstructed as
last_spike_time_ms + dt_ms and last_spike_time_ms never leaves minus
infinity. -/
theorem c1_refractory_violated :
    (LIFNeuron.new 1).refractory_period_ms = 2 ∧
    ((LIFNeuron.new 1).integrate 20000 1).2 = true ∧
    ((((LIFNeuron.new 1).integrate 20000 1).1).integrate 20000 1).2 = true := by
  norm_num [LIFNeuron.integrate, LIFNeuron.new]

/-! ### learning/stdp.rs -/

/-- STDPParameters from learning/stdp.rs.  The scalars are modelled as reals
because the kernel evaluates the exponential function. -/
structure STDPParameters where
  learning_rate : ℝ
  positive_window_ms : ℝ
  negative_window_ms : ℝ
  time_constant_ms : ℝ

/-- STDPParameters::default. -/
noncomputable def STDPParameters.default : STDPParameters where
  learning_rate := 1/100
  positive_window_ms := 20
  negative_window_ms := 20
  time_constant_ms := 20

/-- STDPLearner from learning/stdp.rs. -/
structure STDPLearner where
  params : STDPParameters

/-- STDPLearner::compute_weight_change, dt = t_post - t_pre. -/
noncomputable def STDPLearner.compute_weight_change (l : STDPLearner)
    (dt_ms : ℝ) : ℝ :=
  if dt_ms > 0 then
    -- normalized_dt = dt_ms / time_constant_ms, inlined
    if dt_ms < l.params.positive_window_ms then
      l.params.learning_rate * Real.exp (-(dt_ms / l.params.time_constant_ms))
    else 0
  else
    -- normalized_dt = -dt_ms / time_constant_ms, inlined
    if -dt_ms < l.params.negative_window_ms then
      -l.params.learning_rate * Real.exp (-(-dt_ms / l.params.time_constant_ms))
    else 0

/-- f64::clamp(lo, hi) as used in stdp.rs and synapse.rs: for finite,
non-NaN arguments Rust clamp returns lo if the value is below lo, hi if
above hi, and the value otherwise. -/
noncomputable def fclamp (x lo hi : ℝ) : ℝ :=
  if x < lo then lo else if x > hi then hi else x

/-- STDPLearner::update_weight. -/
noncomputable def STDPLearner.update_weight (l : STDPLearner)
    (current_weight t_pre_ms t_post_ms : ℝ) : ℝ :=
  let dt := t_post_ms - t_pre_ms
  let dw := l.compute_weight_change dt
  let new_weight := current_weight + dw
  fclamp new_weight (-1) 1

/-! ### snn/synapse.rs -/

/-- Synapse from snn/synapse.rs. -/
structure Synapse where
  id : ℕ
  pre_neuron_id : ℕ
  post_neuron_id : ℕ
  weight : ℝ
  delay_ms : ℝ
  is_excitatory : Bool
  trace_pre : ℝ
  trace_post : ℝ

/-- Synapse::new. -/
noncomputable def Synapse.new (id pre post : ℕ) (excitatory : Bool) : Synapse where
  id := id
  pre_neuron_id := pre
  post_neuron_id := post
  weight := 1/2
  delay_ms := 1
  is_excitatory := excitatory
  trace_pre := 0
  trace_post := 0

/-- Synapse::transmit. -/
noncomputable def Synapse.transmit (s : Synapse) : ℝ :=
  let sign : ℝ := if s.is_excitatory then 1 else -1
  sign * s.weight

/-- Synapse::clip_weight. -/
noncomputable def Synapse.clip_weight (s : Synapse) : Synapse :=
  { s with weight := fclamp s.weight (-1) 1 }

/-- fclamp stays inside the clamping interval whenever lo is at most hi. -/
theorem fclamp_mem (x lo hi : ℝ) (h : lo ≤ hi) :
    lo ≤ fclamp x lo hi ∧ fclamp x lo hi ≤ hi := by
  unfold fclamp
  split_ifs with h1 h2 <;> constructor <;> linarith

/-- Claim C2, counterexample to the claim as stated: the claim places dt = 0
outside both windows and demands a zero delta, but the source sends dt = 0
to the depression branch (the else of dt > 0), where -0 < negative_window
holds, producing -learning_rate * exp 0 = -1/100 for the default
parameters. -/
theorem c2_dt_zero_counterexample :
    (STDPLearner.mk STDPParameters.default).compute_weight_change 0 ≠ 0 := by
  unfold STDPLearner.compute_weight_change STDPParameters.default
  norm_num [Real.exp_zero]

/-- Claim C2 (amended): with a positive learning rate and positive window
widths, the kernel returns eta * exp (-dt/tau) > 0 for 0 < dt inside the
positive window, -(eta * exp (-|dt|/tau)) < 0 for dt inside the negative
window INCLUDING dt = 0 (the depression branch covers dt <= 0), and exactly
zero at or beyond either window width. -/
theorem c2_stdp_kernel (l : STDPLearner) (dt : ℝ)
    (heta : 0 < l.params.learning_rate)
    (hpw : 0 < l.params.positive_window_ms)
    (hnw : 0 < l.params.negative_window_ms) :
    (0 < dt ∧ dt < l.params.positive_window_ms →
      l.compute_weight_change dt =
        l.params.learning_rate * Real.exp (-(dt / l.params.time_constant_ms)) ∧
      0 < l.compute_weight_change dt) ∧
    (-l.params.negative_window_ms < dt ∧ dt ≤ 0 →
      l.compute_weight_change dt =
        -l.params.learning_rate * Real.exp (-(-dt / l.params.time_constant_ms)) ∧
      l.compute_weight_change dt < 0) ∧
    (l.params.positive_window_ms ≤ dt ∨ dt ≤ -l.params.negative_window_ms →
      l.compute_weight_change dt = 0) := by
  unfold STDPLearner.compute_weight_change
  refine ⟨fun h => ?_, fun h => ?_, fun h => ?_⟩
  · rw [if_pos h.1, if_pos h.2]
    exact ⟨rfl, mul_pos heta (Real.exp_pos _)⟩
  · rw [if_neg (not_lt.mpr h.2), if_pos (by linarith [h.1])]
    refine ⟨rfl, ?_⟩
    have hp := mul_pos heta (Real.exp_pos (-(-dt / l.params.time_constant_ms)))
    nlinarith [hp]
  · rcases h with h | h
    · rw [if_pos (by linarith), if_neg (not_lt.mpr h)]
    · rw [if_neg (not_lt.mpr (by linarith)), if_neg (not_lt.mpr (by linarith))]

/-- Claim C2 witness: the amended kernel description instantiated at the
default parameters and dt = 10. -/
theorem c2_stdp_kernel_witness :
    (0 < (10:ℝ) ∧ (10:ℝ) < (STDPLearner.mk STDPParameters.default).params.positive_window_ms →
      (STDPLearner.mk STDPParameters.default).compute_weight_change 10 =
        (STDPLearner.mk STDPParameters.default).params.learning_rate *
          Real.exp (-(10 / (STDPLearner.mk STDPParameters.default).params.time_constant_ms)) ∧
      0 < (STDPLearner.mk STDPParameters.default).compute_weight_change 10) ∧
    (-(STDPLearner.mk STDPParameters.default).params.negative_window_ms < (10:ℝ) ∧ (10:ℝ) ≤ 0 →
      (STDPLearner.mk STDPParameters.default).compute_weight_change 10 =
        -(STDPLearner.mk STDPParameters.default).params.learning_rate *
          Real.exp (-(-10 / (STDPLearner.mk STDPParameters.default).params.time_constant_ms)) ∧
      (STDPLearner.mk STDPParameters.default).compute_weight_change 10 < 0) ∧
    ((STDPLearner.mk STDPParameters.default).params.positive_window_ms ≤ (10:ℝ) ∨
        (10:ℝ) ≤ -(STDPLearner.mk STDPParameters.default).params.negative_window_ms →
      (STDPLearner.mk STDPParameters.default).compute_weight_change 10 = 0) :=
  c2_stdp_kernel (STDPLearner.mk STDPParameters.default) 10
    (by unfold STDPParameters.default; norm_num)
    (by unfold STDPParameters.default; norm_num)
    (by unfold STDPParameters.default; norm_num)

/-- Claim C3, counterexample to the claim as stated: an excitatory synapse
with weight -1/2 (a legal weight in [-1,1]) transmits a negative current, so
the delivered sign is not determined by the polarity flag alone. -/
theorem c3_transmit_counterexample :
    ({ Synapse.new 1 1 2 true with weight := -1/2 } : Synapse).is_excitatory = true ∧
    ({ Synapse.new 1 1 2 true with weight := -1/2 } : Synapse).transmit < 0 := by
  unfold Synapse.new Synapse.transmit
  norm_num

/-- Claim C3 (amended): for every synapse and every weight, transmit returns
sign * weight where sign is +1 for an excitatory link and -1 for an
inhibitory link, and the magnitude is always |weight|; the sign of the
delivered current matches the polarity flag exactly when the weight is
nonnegative, and a negative weight flips the delivered sign relative to the
polarity. -/
theorem c3_transmit (s : Synapse) :
    s.transmit = (if s.is_excitatory then (1:ℝ) else -1) * s.weight ∧
    |s.transmit| = |s.weight| ∧
    (0 ≤ s.weight →
      (s.is_excitatory = true → 0 ≤ s.transmit) ∧
      (s.is_excitatory = false → s.transmit ≤ 0)) ∧
    (s.weight < 0 →
      (s.is_excitatory = true → s.transmit < 0) ∧
      (s.is_excitatory = false → 0 < s.transmit)) := by
  have ht : s.transmit = (if s.is_excitatory then (1:ℝ) else -1) * s.weight := rfl
  refine ⟨ht, ?_, fun hw => ⟨fun h => ?_, fun h => ?_⟩,
    fun hw => ⟨fun h => ?_, fun h => ?_⟩⟩
  · rw [ht]; cases hx : s.is_excitatory <;> simp
  · rw [ht, h, if_pos rfl, one_mul]; exact hw
  · rw [ht, h, if_neg Bool.false_ne_true, neg_one_mul]
    exact neg_nonpos.mpr hw
  · rw [ht, h, if_pos rfl, one_mul]; exact hw
  · rw [ht, h, if_neg Bool.false_ne_true, neg_one_mul]
    exact neg_pos.mpr hw

/-- Claim C3 witness: the amended statement instantiated at an excitatory
synapse carrying the negative weight -1/2 — the case where the delivered
sign flips relative to the polarity. -/
theorem c3_transmit_witness :
    ({ Synapse.new 1 1 2 true with weight := -1/2 } : Synapse).transmit =
      (if ({ Synapse.new 1 1 2 true with weight := -1/2 } : Synapse).is_excitatory
        then (1:ℝ) else -1) *
        ({ Synapse.new 1 1 2 true with weight := -1/2 } : Synapse).weight ∧
    |({ Synapse.new 1 1 2 true with weight := -1/2 } : Synapse).transmit| =
      |({ Synapse.new 1 1 2 true with weight := -1/2 } : Synapse).weight| ∧
    (0 ≤ ({ Synapse.new 1 1 2 true with weight := -1/2 } : Synapse).weight →
      (({ Synapse.new 1 1 2 true with weight := -1/2 } : Synapse).is_excitatory = true →
        0 ≤ ({ Synapse.new 1 1 2 true with weight := -1/2 } : Synapse).transmit) ∧
      (({ Synapse.new 1 1 2 true with weight := -1/2 } : Synapse).is_excitatory = false →
        ({ Synapse.new 1 1 2 true with weight := -1/2 } : Synapse).transmit ≤ 0)) ∧
    (({ Synapse.new 1 1 2 true with weight := -1/2 } : Synapse).weight < 0 →
      (({ Synapse.new 1 1 2 true with weight := -1/2 } : Synapse).is_excitatory = true →
        ({ Synapse.new 1 1 2 true with weight := -1/2 } : Synapse).transmit < 0) ∧
      (({ Synapse.new 1 1 2 true with weight := -1/2 } : Synapse).is_excitatory = false →
        0 < ({ Synapse.new 1 1 2 true with weight := -1/2 } : Synapse).transmit)) :=
  c3_transmit { Synapse.new 1 1 2 true with weight := -1/2 }

/-- Claim C4: for every starting weight in [-1,1], every pair of spike times
and every parameter setting (learning rates of 1 or more included), the
weight returned by STDPLearner::update_weight lies in [-1,1], and so does
the weight of a synapse after Synapse::clip_weight. -/
theorem c4_weight_clamped (l : STDPLearner) (w t_pre t_post : ℝ) (s : Synapse)
    (_hw₁ : -1 ≤ w) (_hw₂ : w ≤ 1) (_hs₁ : -1 ≤ s.weight) (_hs₂ : s.weight ≤ 1) :
    (-1 ≤ l.update_weight w t_pre t_post ∧ l.update_weight w t_pre t_post ≤ 1) ∧
    (-1 ≤ s.clip_weight.weight ∧ s.clip_weight.weight ≤ 1) := by
  constructor
  · unfold STDPLearner.update_weight
    exact fclamp_mem _ _ _ (by norm_num)
  · unfold Synapse.clip_weight
    exact fclamp_mem _ _ _ (by norm_num)

/-- Claim C4 witness: a learner with learning rate 2 updating the extreme
weight 1 with spike times 0 and 5 stays inside [-1,1], as does clipping a
fresh synapse. -/
theorem c4_weight_clamped_witness :
    (-1 ≤ (STDPLearner.mk (STDPParameters.mk 2 20 20 20)).update_weight 1 0 5 ∧
      (STDPLearner.mk (STDPParameters.mk 2 20 20 20)).update_weight 1 0 5 ≤ 1) ∧
    (-1 ≤ (Synapse.new 1 1 2 true).clip_weight.weight ∧
      (Synapse.new 1 1 2 true).clip_weight.weight ≤ 1) :=
  c4_weight_clamped (STDPLearner.mk (STDPParameters.mk 2 20 20 20)) 1 0 5
    (Synapse.new 1 1 2 true) (by norm_num) (by norm_num)
    (by unfold Synapse.new; norm_num) (by unfold Synapse.new; norm_num)

/-! ### learning/reward.rs -/

/-- RewardSignal from learning/reward.rs. -/
inductive RewardSignal where
  | TreeGrowth (v : ℚ)
  | SoilHealthImprovement (v : ℚ)
  | WildlifeReturn (v : ℚ)
  | WaterConservation (v : ℚ)
  | FireRiskReduction (v : ℚ)
  | Penalty (v : ℚ)
  deriving Repr, DecidableEq

/-- RewardSignal::value: penalties are negated, all other tags pass the
scalar through. -/
def RewardSignal.value : RewardSignal → ℚ
  | .TreeGrowth v => v
  | .SoilHealthImprovement v => v
  | .WildlifeReturn v => v
  | .WaterConservation v => v
  | .FireRiskReduction v => v
  | .Penalty v => -v

/-- RewardLearner from learning/reward.rs. -/
structure RewardLearner where
  agent_id : ℕ
  cumulative_reward : ℚ
  episode_rewards : List ℚ
  value_estimate : ℚ
  learning_rate : ℚ
  discount_factor : ℚ
  deriving Repr, DecidableEq

/-- RewardLearner::new. -/
def RewardLearner.new (agent_id : ℕ) : RewardLearner where
  agent_id := agent_id
  cumulative_reward := 0
  episode_rewards := []
  value_estimate := 1/2
  learning_rate := 1/10
  discount_factor := 99/100

/-- RewardLearner::receive_reward.  The tracing call in the source is a
log-only side effect and has no counterpart here. -/
def RewardLearner.receive_reward (l : RewardLearner) (reward : RewardSignal) :
    RewardLearner :=
  let r := reward.value
  let td_error := r + l.discount_factor * l.value_estimate - l.value_estimate
  { l with
      cumulative_reward := l.cumulative_reward + r,
      episode_rewards := l.episode_rewards ++ [r],
      value_estimate := l.value_estimate + l.learning_rate * td_error }

/-- Claim C9: a fresh learner (value estimate 1/2, learning rate 1/10,
discount 99/100) receiving reward +1 appends 1 to the episode list, reaches
cumulative reward exactly 1, and moves its value estimate by the
temporal-difference step V + alpha * (r + gamma * V - V) computed from its
own current estimate — a nonzero change. -/
theorem c9_reward_update :
    (RewardLearner.new 1).value_estimate = 1/2 ∧
    (RewardLearner.new 1).learning_rate = 1/10 ∧
    (RewardLearner.new 1).discount_factor = 99/100 ∧
    ((RewardLearner.new 1).receive_reward (RewardSignal.TreeGrowth 1)).episode_rewards =
      (RewardLearner.new 1).episode_rewards ++ [1] ∧
    ((RewardLearner.new 1).receive_reward (RewardSignal.TreeGrowth 1)).cumulative_reward = 1 ∧
    ((RewardLearner.new 1).receive_reward (RewardSignal.TreeGrowth 1)).value_estimate =
      (RewardLearner.new 1).value_estimate +
        (RewardLearner.new 1).learning_rate *
          (1 + (RewardLearner.new 1).discount_factor * (RewardLearner.new 1).value_estimate -
            (RewardLearner.new 1).value_estimate) ∧
    ((RewardLearner.new 1).receive_reward (RewardSignal.TreeGrowth 1)).value_estimate ≠
      (RewardLearner.new 1).value_estimate := by
  norm_num [RewardLearner.new, RewardLearner.receive_reward, RewardSignal.value]

/-! ### swarm/agent.rs -/

/-- SwarmAgentType from swarm/agent.rs. -/
inductive SwarmAgentType where
  | Drone
  | Nanobot
  deriving Repr, DecidableEq

/-- AgentState from swarm/agent.rs. -/
inductive AgentState where
  | Idle
  | Exploring
  | ExecutingTask
  | Returning
  | Communicating
  | Error
  deriving Repr, DecidableEq

/-- SensorReadings from swarm/agent.rs. -/
structure SensorReadings where
  soil_moisture_percent : ℚ
  soil_ph : ℚ
  temperature_c : ℚ
  light_level : ℚ
  co2_ppm : ℚ
  threats_detected : ℕ
  deriving Repr, DecidableEq

/-- SensorReadings::default. -/
def SensorReadings.default : SensorReadings where
  soil_moisture_percent := 20
  soil_ph := 72/10
  temperature_c := 25
  light_level := 1/2
  co2_ppm := 400
  threats_detected := 0

/-- SNNAgentState from swarm/agent.rs. -/
structure SNNAgentState where
  decision_confidence : ℚ
  task_priority : ℚ
  arousal_level : ℚ
  social_influence : ℚ
  recent_spikes : ℕ
  deriving Repr, DecidableEq

/-- SNNAgentState::default. -/
def SNNAgentState.default : SNNAgentState where
  decision_confidence := 1/2
  task_priority := 3/10
  arousal_level := 7/10
  social_influence := 1/2
  recent_spikes := 0

/-- SwarmAgent from swarm/agent.rs. -/
structure SwarmAgent where
  id : ℕ
  agent_type : SwarmAgentType
  position : ℚ × ℚ × ℚ
  velocity : ℚ × ℚ × ℚ
  heading : ℚ
  state : AgentState
  local_sensor_data : SensorReadings
  snn_state : SNNAgentState
  deriving Repr, DecidableEq

/-- SwarmAgent::new. -/
def SwarmAgent.new (id : ℕ) (agent_type : SwarmAgentType) : SwarmAgent where
  id := id
  agent_type := agent_type
  position := (0, 0, 0)
  velocity := (0, 0, 0)
  heading := 0
  state := AgentState.Idle
  local_sensor_data := SensorReadings.default
  snn_state := SNNAgentState.default

/-! ### swarm/collective.rs -/

/-- ConsensusDecision from swarm/collective.rs. -/
inductive ConsensusDecision where
  | Explore
  | Concentrate
  | Retreat
  | Wait
  deriving Repr, DecidableEq

/-- CoordinationState from swarm/collective.rs.  group_cohesion is produced
by exp and is modelled as a real; the other scalars stay rational. -/
structure CoordinationState where
  centroid_lat : ℚ
  centroid_lon : ℚ
  average_arousal : ℚ
  group_cohesion : ℝ
  time_since_decision_s : ℕ

/-- SwarmCollective from swarm/collective.rs.  The HashMap from agent id to
agent is modelled as the list of its values in some iteration order; the
permutation theorems below cover the arbitrariness of that order. -/
structure SwarmCollective where
  swarm_id : ℕ
  agents : List SwarmAgent
  consensus_decision : ConsensusDecision
  coordination_state : CoordinationState

/-- SwarmCollective::new. -/
noncomputable def SwarmCollective.new (swarm_id : ℕ) : SwarmCollective where
  swarm_id := swarm_id
  agents := []
  consensus_decision := ConsensusDecision.Explore
  coordination_state :=
    { centroid_lat := 0
      centroid_lon := 0
      average_arousal := 1/2
      group_cohesion := 1/2
      time_since_decision_s := 0 }

/-- SwarmCollective::update_centroid. -/
def SwarmCollective.update_centroid (c : SwarmCollective) : SwarmCollective :=
  if c.agents.isEmpty then c
  else
    let sum_lat := (c.agents.map fun a => a.position.1).sum
    let sum_lon := (c.agents.map fun a => a.position.2.1).sum
    let sum_arousal := (c.agents.map fun a => a.snn_state.arousal_level).sum
    let n : ℚ := (c.agents.length : ℚ)
    { c with
        coordination_state :=
          { c.coordination_state with
              centroid_lat := sum_lat / n
              centroid_lon := sum_lon / n
              average_arousal := sum_arousal / n } }

/-- SwarmCollective::calculate_cohesion. -/
noncomputable def SwarmCollective.calculate_cohesion (c : SwarmCollective) :
    SwarmCollective :=
  if c.agents.isEmpty then
    { c with
        coordination_state := { c.coordination_state with group_cohesion := 0 } }
  else
    let distance_sum : ℝ :=
      (c.agents.map fun a =>
        Real.sqrt
          ((((a.position.1 - c.coordination_state.centroid_lat) *
                (a.position.1 - c.coordination_state.centroid_lat) +
              (a.position.2.1 - c.coordination_state.centroid_lon) *
                (a.position.2.1 - c.coordination_state.centroid_lon) : ℚ) : ℝ))).sum
    let avg_distance := distance_sum / (c.agents.length : ℝ)
    { c with
        coordination_state :=
          { c.coordination_state with
              group_cohesion := fclamp (Real.exp (-avg_distance * 10)) 0 1 } }

/-- The vote of one task-priority scalar for the explore bucket: the final
arm of the match in consensus_majority (neither of the first two guards). -/
def exploreVote (p : ℚ) : Bool := !(decide (p > 7/10)) && !(decide (p < 3/10))

/-- The vote of one task-priority scalar for the concentrate bucket: first
arm of the match in consensus_majority. -/
def concentrateVote (p : ℚ) : Bool := decide (p > 7/10)

/-- The vote of one task-priority scalar for the retreat bucket: second arm
of the match in consensus_majority (first guard already failed). -/
def retreatVote (p : ℚ) : Bool := !(decide (p > 7/10)) && decide (p < 3/10)

/-- The counter loop of SwarmCollective::consensus_majority: walk the
priorities, incrementing (explore_count, concentrate_count, retreat_count)
according to the match arms. -/
def tallyVotes : List ℚ → ℕ × ℕ × ℕ
  | [] => (0, 0, 0)
  | p :: rest =>
    let t := tallyVotes rest
    if p > 7/10 then (t.1, t.2.1 + 1, t.2.2)
    else if p < 3/10 then (t.1, t.2.1, t.2.2 + 1)
    else (t.1 + 1, t.2.1, t.2.2)

/-- The decision match of SwarmCollective::consensus_majority: match on
max(max(explore, concentrate), retreat) against the three counters in
order, defaulting to Wait. -/
def pickDecision (e c r : ℕ) : ConsensusDecision :=
  if max (max e c) r = e then ConsensusDecision.Explore
  else if max (max e c) r = c then ConsensusDecision.Concentrate
  else if max (max e c) r = r then ConsensusDecision.Retreat
  else ConsensusDecision.Wait

/-- The value SwarmCollective::consensus_majority stores, as a function of
the iterated task priorities. -/
def consensusOf (ps : List ℚ) : ConsensusDecision :=
  pickDecision (tallyVotes ps).1 (tallyVotes ps).2.1 (tallyVotes ps).2.2

/-- SwarmCollective::consensus_majority. -/
def SwarmCollective.consensus_majority (c : SwarmCollective) : SwarmCollective :=
  { c with
      consensus_decision :=
        consensusOf (c.agents.map fun a => a.snn_state.task_priority) }

/-- The counter loop computes the three bucket counts of the priority
multiset. -/
theorem tallyVotes_eq (ps : List ℚ) :
    tallyVotes ps =
      (ps.countP exploreVote, ps.countP concentrateVote, ps.countP retreatVote) := by
  induction ps with
  | nil => simp [tallyVotes]
  | cons p rest ih =>
    by_cases h1 : p > 7/10
    · simp [tallyVotes, ih, List.countP_cons, exploreVote, concentrateVote,
        retreatVote, h1]
    · by_cases h2 : p < 3/10 <;>
        simp [tallyVotes, ih, List.countP_cons, exploreVote, concentrateVote,
          retreatVote, h1, h2]

/-- If the explore counter is maximal the match yields Explore. -/
theorem pickDecision_explore {e c r : ℕ} (h1 : c ≤ e) (h2 : r ≤ e) :
    pickDecision e c r = ConsensusDecision.Explore := by
  unfold pickDecision
  rw [if_pos (by omega)]

/-- If the concentrate counter strictly beats explore and is at least
retreat, the match yields Concentrate. -/
theorem pickDecision_concentrate {e c r : ℕ} (h1 : e < c) (h2 : r ≤ c) :
    pickDecision e c r = ConsensusDecision.Concentrate := by
  unfold pickDecision
  rw [if_neg (by omega), if_pos (by omega)]

/-- If the retreat counter strictly beats both others, the match yields
Retreat. -/
theorem pickDecision_retreat {e c r : ℕ} (h1 : e < r) (h2 : c < r) :
    pickDecision e c r = ConsensusDecision.Retreat := by
  unfold pickDecision
  rw [if_neg (by omega), if_neg (by omega), if_pos (by omega)]

/-- The default arm of the match is dead code: the maximum of the three
counters always equals one of them. -/
theorem pickDecision_ne_wait (e c r : ℕ) :
    pickDecision e c r ≠ ConsensusDecision.Wait := by
  unfold pickDecision
  split_ifs with h1 h2 h3
  · simp
  · simp
  · simp
  · omega

/-- The stored decision depends only on the multiset of priorities. -/
theorem consensusOf_perm {ps ps' : List ℚ} (h : ps.Perm ps') :
    consensusOf ps = consensusOf ps' := by
  unfold consensusOf
  rw [tallyVotes_eq, tallyVotes_eq, h.countP_eq, h.countP_eq, h.countP_eq]

/-- Claim C5: consensus_majority buckets agents by task priority
(concentrate above 7/10, retreat below 3/10, explore otherwise), picks the
bucket with the largest count with ties resolved in the order explore,
concentrate, retreat, and produces the same decision for any two collectives
whose priority multisets agree — hence is independent of the agent-map
iteration order. -/
theorem c5_consensus_majority (c₁ c₂ : SwarmCollective)
    (hperm : (c₁.agents.map fun a => a.snn_state.task_priority).Perm
      (c₂.agents.map fun a => a.snn_state.task_priority)) :
    c₁.consensus_majority.consensus_decision =
      c₂.consensus_majority.consensus_decision ∧
    (((c₁.agents.map fun a => a.snn_state.task_priority).countP concentrateVote ≤
        (c₁.agents.map fun a => a.snn_state.task_priority).countP exploreVote ∧
      (c₁.agents.map fun a => a.snn_state.task_priority).countP retreatVote ≤
        (c₁.agents.map fun a => a.snn_state.task_priority).countP exploreVote) →
      c₁.consensus_majority.consensus_decision = ConsensusDecision.Explore) ∧
    (((c₁.agents.map fun a => a.snn_state.task_priority).countP exploreVote <
        (c₁.agents.map fun a => a.snn_state.task_priority).countP concentrateVote ∧
      (c₁.agents.map fun a => a.snn_state.task_priority).countP retreatVote ≤
        (c₁.agents.map fun a => a.snn_state.task_priority).countP concentrateVote) →
      c₁.consensus_majority.consensus_decision = ConsensusDecision.Concentrate) ∧
    (((c₁.agents.map fun a => a.snn_state.task_priority).countP exploreVote <
        (c₁.agents.map fun a => a.snn_state.task_priority).countP retreatVote ∧
      (c₁.agents.map fun a => a.snn_state.task_priority).countP concentrateVote <
        (c₁.agents.map fun a => a.snn_state.task_priority).countP retreatVote) →
      c₁.consensus_majority.consensus_decision = ConsensusDecision.Retreat) := by
  have hdec : c₁.consensus_majority.consensus_decision =
      consensusOf (c₁.agents.map fun a => a.snn_state.task_priority) := rfl
  have hof : consensusOf (c₁.agents.map fun a => a.snn_state.task_priority) =
      pickDecision
        ((c₁.agents.map fun a => a.snn_state.task_priority).countP exploreVote)
        ((c₁.agents.map fun a => a.snn_state.task_priority).countP concentrateVote)
        ((c₁.agents.map fun a => a.snn_state.task_priority).countP retreatVote) := by
    unfold consensusOf
    rw [tallyVotes_eq]
  refine ⟨consensusOf_perm hperm, ?_, ?_, ?_⟩
  · intro h
    rw [hdec, hof]
    exact pickDecision_explore h.1 h.2
  · intro h
    rw [hdec, hof]
    exact pickDecision_concentrate h.1 h.2
  · intro h
    rw [hdec, hof]
    exact pickDecision_retreat h.1 h.2

/-- A swarm agent with a given id and task priority, for witnesses. -/
def agentWithPriority (id : ℕ) (p : ℚ) : SwarmAgent :=
  { SwarmAgent.new id SwarmAgentType.Drone with
      snn_state := { SNNAgentState.default with task_priority := p } }

/-- A collective holding the given agents, for witnesses. -/
noncomputable def collectiveWith (agents : List SwarmAgent) : SwarmCollective :=
  { SwarmCollective.new 1 with agents := agents }

/-- Claim C5 witness: two collectives holding the same three agents
(priorities 4/5, 1/10, 1/2) in different orders. -/
theorem c5_consensus_majority_witness :
    (collectiveWith
        [agentWithPriority 1 (4/5), agentWithPriority 2 (1/10),
          agentWithPriority 3 (1/2)]).consensus_majority.consensus_decision =
      (collectiveWith
        [agentWithPriority 3 (1/2), agentWithPriority 2 (1/10),
          agentWithPriority 1 (4/5)]).consensus_majority.consensus_decision ∧
    ((((collectiveWith
        [agentWithPriority 1 (4/5), agentWithPriority 2 (1/10),
          agentWithPriority 3 (1/2)]).agents.map fun a => a.snn_state.task_priority).countP concentrateVote ≤
        (((collectiveWith
        [agentWithPriority 1 (4/5), agentWithPriority 2 (1/10),
          agentWithPriority 3 (1/2)]).agents.map fun a => a.snn_state.task_priority)).countP exploreVote ∧
      (((collectiveWith
        [agentWithPriority 1 (4/5), agentWithPriority 2 (1/10),
          agentWithPriority 3 (1/2)]).agents.map fun a => a.snn_state.task_priority)).countP retreatVote ≤
        (((collectiveWith
        [agentWithPriority 1 (4/5), agentWithPriority 2 (1/10),
          agentWithPriority 3 (1/2)]).agents.map fun a => a.snn_state.task_priority)).countP exploreVote) →
      (collectiveWith
        [agentWithPriority 1 (4/5), agentWithPriority 2 (1/10),
          agentWithPriority 3 (1/2)]).consensus_majority.consensus_decision =
        ConsensusDecision.Explore) ∧
    ((((collectiveWith
        [agentWithPriority 1 (4/5), agentWithPriority 2 (1/10),
          agentWithPriority 3 (1/2)]).agents.map fun a => a.snn_state.task_priority)).countP exploreVote <
        (((collectiveWith
        [agentWithPriority 1 (4/5), agentWithPriority 2 (1/10),
          agentWithPriority 3 (1/2)]).agents.map fun a => a.snn_state.task_priority)).countP concentrateVote ∧
      (((collectiveWith
        [agentWithPriority 1 (4/5), agentWithPriority 2 (1/10),
          agentWithPriority 3 (1/2)]).agents.map fun a => a.snn_state.task_priority)).countP retreatVote ≤
        (((collectiveWith
        [agentWithPriority 1 (4/5), agentWithPriority 2 (1/10),
          agentWithPriority 3 (1/2)]).agents.map fun a => a.snn_state.task_priority)).countP concentrateVote →
      (collectiveWith
        [agentWithPriority 1 (4/5), agentWithPriority 2 (1/10),
          agentWithPriority 3 (1/2)]).consensus_majority.consensus_decision =
        ConsensusDecision.Concentrate) ∧
    ((((collectiveWith
        [agentWithPriority 1 (4/5), agentWithPriority 2 (1/10),
          agentWithPriority 3 (1/2)]).agents.map fun a => a.snn_state.task_priority)).countP exploreVote <
        (((collectiveWith
        [agentWithPriority 1 (4/5), agentWithPriority 2 (1/10),
          agentWithPriority 3 (1/2)]).agents.map fun a => a.snn_state.task_priority)).countP retreatVote ∧
      (((collectiveWith
        [agentWithPriority 1 (4/5), agentWithPriority 2 (1/10),
          agentWithPriority 3 (1/2)]).agents.map fun a => a.snn_state.task_priority)).countP concentrateVote <
        (((collectiveWith
        [agentWithPriority 1 (4/5), agentWithPriority 2 (1/10),
          agentWithPriority 3 (1/2)]).agents.map fun a => a.snn_state.task_priority)).countP retreatVote →
      (collectiveWith
        [agentWithPriority 1 (4/5), agentWithPriority 2 (1/10),
          agentWithPriority 3 (1/2)]).consensus_majority.consensus_decision =
        ConsensusDecision.Retreat) :=
  c5_consensus_majority
    (collectiveWith
      [agentWithPriority 1 (4/5), agentWithPriority 2 (1/10),
        agentWithPriority 3 (1/2)])
    (collectiveWith
      [agentWithPriority 3 (1/2), agentWithPriority 2 (1/10),
        agentWithPriority 1 (4/5)])
    (by
      show ([(4:ℚ)/5, 1/10, 1/2]).Perm ([(1:ℚ)/2, 1/10, 4/5])
      exact (List.reverse_perm [(4:ℚ)/5, 1/10, 1/2]).symm)

/-- Claim C10: consensus_majority never stores Wait: the fallback arm of the
decision match is unreachable for every agent map, the empty one included. -/
theorem c10_wait_unreachable (c : SwarmCollective) :
    c.consensus_majority.consensus_decision ≠ ConsensusDecision.Wait := by
  show consensusOf (c.agents.map fun a => a.snn_state.task_priority) ≠
    ConsensusDecision.Wait
  unfold consensusOf
  exact pickDecision_ne_wait _ _ _

/-- Claim C7, counterexample to the claim as stated: on a freshly created
(empty) collective, whose group cohesion starts at 1/2, calculate_cohesion
is not a no-op — its empty branch overwrites group_cohesion with 0. -/
theorem c7_empty_counterexample :
    (SwarmCollective.new 1).calculate_cohesion ≠ SwarmCollective.new 1 := by
  intro h
  have h2 := congrArg (fun s => s.coordination_state.group_cohesion) h
  simp only [SwarmCollective.calculate_cohesion, SwarmCollective.new,
    List.isEmpty_nil, if_true] at h2
  norm_num at h2

/-- Claim C7 (amended): with zero agents none of the aggregation operations
fails, and update_centroid is a genuine no-op; but calculate_cohesion sets
group_cohesion to 0 (leaving everything else unchanged) and
consensus_majority sets the decision to Explore (all three counters are 0
and the explore arm of the max-match wins the tie). -/
theorem c7_empty_collective (c : SwarmCollective) (h : c.agents = []) :
    c.update_centroid = c ∧
    c.calculate_cohesion =
      { c with
          coordination_state :=
            { c.coordination_state with group_cohesion := 0 } } ∧
    c.consensus_majority = { c with consensus_decision := ConsensusDecision.Explore } := by
  refine ⟨?_, ?_, ?_⟩
  · simp [SwarmCollective.update_centroid, h]
  · simp [SwarmCollective.calculate_cohesion, h]
  · simp [SwarmCollective.consensus_majority, h, consensusOf, tallyVotes,
      pickDecision]

/-- Claim C7 witness: the amended statement instantiated at a freshly
created collective, which is empty. -/
theorem c7_empty_collective_witness :
    (SwarmCollective.new 1).update_centroid = SwarmCollective.new 1 ∧
    (SwarmCollective.new 1).calculate_cohesion =
      { SwarmCollective.new 1 with
          coordination_state :=
            { (SwarmCollective.new 1).coordination_state with group_cohesion := 0 } } ∧
    (SwarmCollective.new 1).consensus_majority =
      { SwarmCollective.new 1 with consensus_decision := ConsensusDecision.Explore } :=
  c7_empty_collective (SwarmCollective.new 1) rfl

/-! ### swarm/decision.rs -/

/-- ObjectiveType from swarm/decision.rs. -/
inductive ObjectiveType where
  | Survey
  | WaterDelivery
  | SoilAmendment
  | WildlifeMonitoring
  | FireSuppressionPrep
  deriving Repr, DecidableEq

/-- MissionObjective from swarm/decision.rs. -/
structure MissionObjective where
  objective_id : ℕ
  objective_type : ObjectiveType
  target_zone_id : ℕ
  urgency : ℚ
  resources_required : ℕ
  deadline_seconds : ℕ
  deriving Repr, DecidableEq

/-- SwarmDecisionSystem from swarm/decision.rs. -/
structure SwarmDecisionSystem where
  objectives : List MissionObjective
  active_collective : Option SwarmCollective

/-- SwarmDecisionSystem::prioritize_objectives.  The source runs the
standard stable sort with comparator
b.urgency.partial_cmp(a.urgency).unwrap_or(Equal); for non-NaN keys that is
a stable sort into descending urgency, modelled by the stable merge sort
with the boolean relation (a before b when b.urgency <= a.urgency). -/
def SwarmDecisionSystem.prioritize_objectives (sys : SwarmDecisionSystem) :
    List MissionObjective :=
  sys.objectives.mergeSort fun a b => decide (b.urgency ≤ a.urgency)

/-- The allocation loop of SwarmDecisionSystem::allocate_agents: walk the
ranked objectives, giving each objective the next resources_required ids
from the remaining agent-id list (fewer when the list runs out, continuing
with the next objective), and collect the inserted (agent id, objective)
pairs. -/
def allocateGo : List MissionObjective → List ℕ → List (ℕ × MissionObjective)
  | [], _ => []
  | obj :: rest, agents =>
    ((agents.take obj.resources_required).map fun a => (a, obj)) ++
      allocateGo rest (agents.drop obj.resources_required)

/-- SwarmDecisionSystem::allocate_agents.  The returned HashMap is modelled
as the association list of inserted pairs; its keys are distinct because the
ids are consumed left to right from the key list of the agent map. -/
def SwarmDecisionSystem.allocate_agents (sys : SwarmDecisionSystem)
    (collective : SwarmCollective) : List (ℕ × MissionObjective) :=
  allocateGo sys.prioritize_objectives (collective.agents.map fun a => a.id)

/-- SwarmDecisionSystem::mission_feasibility.  For a nonempty collective and
resources_required = 0, the f64 division agent_count / 0.0 yields plus
infinity and min(plus infinity, 1.0) = 1.0; the embedding makes that case
explicit. -/
noncomputable def SwarmDecisionSystem.mission_feasibility
    (_sys : SwarmDecisionSystem) (collective : SwarmCollective)
    (objective : MissionObjective) : ℝ :=
  if collective.agents.isEmpty then 0
  else
    let agent_count : ℝ := (collective.agents.length : ℝ)
    let resources_factor : ℝ :=
      if objective.resources_required = 0 then 1
      else min (agent_count / (objective.resources_required : ℝ)) 1
    let cohesion_factor := collective.coordination_state.group_cohesion
    let arousal_factor : ℝ := (collective.coordination_state.average_arousal : ℝ)
    min (resources_factor * (2/5) + cohesion_factor * (3/10) +
      arousal_factor * (3/10)) 1

/-- The ids handed out by the allocation loop form a left-to-right prefix of
the agent-id list. -/
theorem allocateGo_fst_take :
    ∀ (objs : List MissionObjective) (agents : List ℕ),
      ∃ k, (allocateGo objs agents).map Prod.fst = agents.take k := by
  intro objs
  induction objs with
  | nil => exact fun agents => ⟨0, by simp [allocateGo]⟩
  | cons obj rest ih =>
    intro agents
    obtain ⟨k, hk⟩ := ih (agents.drop obj.resources_required)
    refine ⟨obj.resources_required + k, ?_⟩
    have hmap : (((agents.take obj.resources_required).map fun a => (a, obj)).map
        Prod.fst) = agents.take obj.resources_required := by
      rw [List.map_map]
      have h2 : (Prod.fst ∘ fun a : ℕ => (a, obj)) = id := rfl
      rw [h2, List.map_id]
    show ((((agents.take obj.resources_required).map fun a => (a, obj)) ++
        allocateGo rest (agents.drop obj.resources_required)).map Prod.fst) =
      agents.take (obj.resources_required + k)
    rw [List.map_append, hmap, hk, List.take_add]

/-- Every pair handed out by the allocation loop carries one of the walked
objectives. -/
theorem allocateGo_snd_mem :
    ∀ (objs : List MissionObjective) (agents : List ℕ)
      (q : ℕ × MissionObjective), q ∈ allocateGo objs agents → q.2 ∈ objs := by
  intro objs
  induction objs with
  | nil => simp [allocateGo]
  | cons obj rest ih =>
    intro agents q hq
    rcases List.mem_append.1 hq with h | h
    · obtain ⟨a, _, rfl⟩ := List.mem_map.1 h
      exact List.mem_cons_self _ _
    · exact List.mem_cons_of_mem _ (ih _ _ h)

/-- When the walked objectives carry distinct ids, no objective receives
more ids than its required count. -/
theorem allocateGo_countP_le
    (objs : List MissionObjective) (agents : List ℕ) (o : MissionObjective)
    (hnd : (objs.map fun x => x.objective_id).Nodup) (ho : o ∈ objs) :
    (allocateGo objs agents).countP
        (fun q => q.2.objective_id == o.objective_id) ≤
      o.resources_required := by
  induction objs generalizing agents with
  | nil => simp at ho
  | cons obj rest ih =>
    rw [List.map_cons, List.nodup_cons] at hnd
    rw [allocateGo, List.countP_append]
    rcases List.mem_cons.1 ho with rfl | hmem
    · have hchunk : (((agents.take o.resources_required).map fun a => (a, o)).countP
          fun q => q.2.objective_id == o.objective_id) ≤ o.resources_required := by
        refine le_trans (List.countP_le_length _) ?_
        rw [List.length_map, List.length_take]
        exact min_le_left _ _
      have hrest : (allocateGo rest (agents.drop o.resources_required)).countP
          (fun q => q.2.objective_id == o.objective_id) = 0 := by
        rw [List.countP_eq_zero]
        intro q hq
        have hq2 := allocateGo_snd_mem rest _ q hq
        simp only [beq_iff_eq]
        intro heq
        exact hnd.1 (heq ▸ List.mem_map_of_mem (fun x => x.objective_id) hq2)
      omega
    · have hchunk : ((agents.take obj.resources_required).map fun a => (a, obj)).countP
          (fun q => q.2.objective_id == o.objective_id) = 0 := by
        rw [List.countP_eq_zero]
        intro q hq
        obtain ⟨a, _, rfl⟩ := List.mem_map.1 hq
        simp only [beq_iff_eq]
        intro heq
        exact hnd.1 (heq ▸ List.mem_map_of_mem (fun x => x.objective_id) hmem)
      have := ih (agents.drop obj.resources_required) hnd.2 hmem
      omega

/-- Claim C6: for a collective with distinct agent ids and objectives with
distinct ids, allocate_agents walks the objectives in descending-urgency
order (a permutation of the stored objectives), gives no objective more ids
than its required count, assigns no agent twice, and hands out ids as a
left-to-right prefix of the fixed agent-id enumeration — so agents beyond
that prefix stay unassigned once the list is exhausted. -/
theorem c6_allocate_agents (sys : SwarmDecisionSystem) (c : SwarmCollective)
    (hagents : (c.agents.map fun a => a.id).Nodup)
    (hids : (sys.objectives.map fun o => o.objective_id).Nodup) :
    sys.prioritize_objectives.Pairwise (fun a b => b.urgency ≤ a.urgency) ∧
    sys.prioritize_objectives.Perm sys.objectives ∧
    (∀ o ∈ sys.objectives,
      (sys.allocate_agents c).countP
          (fun q => q.2.objective_id == o.objective_id) ≤
        o.resources_required) ∧
    ((sys.allocate_agents c).map Prod.fst).Nodup ∧
    ∃ k, (sys.allocate_agents c).map Prod.fst =
      (c.agents.map fun a => a.id).take k := by
  have hperm : sys.prioritize_objectives.Perm sys.objectives :=
    List.mergeSort_perm sys.objectives _
  refine ⟨?_, hperm, ?_, ?_, ?_⟩
  · have hs := @List.sorted_mergeSort MissionObjective
      (fun a b => decide (b.urgency ≤ a.urgency))
      (fun a b c hab hbc => by
        simp only [decide_eq_true_eq] at *
        exact le_trans hbc hab)
      (fun a b => by
        simp only [Bool.or_eq_true, decide_eq_true_eq]
        exact le_total b.urgency a.urgency)
      sys.objectives
    exact hs.imp fun h => of_decide_eq_true h
  · intro o ho
    exact allocateGo_countP_le sys.prioritize_objectives _ o
      (((hperm.map fun x => x.objective_id).nodup_iff).2 hids)
      (hperm.mem_iff.2 ho)
  · obtain ⟨k, hk⟩ := allocateGo_fst_take sys.prioritize_objectives
      (c.agents.map fun a => a.id)
    rw [SwarmDecisionSystem.allocate_agents, hk]
    exact hagents.sublist (List.take_sublist _ _)
  · exact allocateGo_fst_take _ _

/-- First sample objective for the allocation witness. -/
def c6ObjA : MissionObjective :=
  { objective_id := 1
    objective_type := ObjectiveType.Survey
    target_zone_id := 100
    urgency := 3/10
    resources_required := 2
    deadline_seconds := 3600 }

/-- Second sample objective for the allocation witness. -/
def c6ObjB : MissionObjective :=
  { objective_id := 2
    objective_type := ObjectiveType.FireSuppressionPrep
    target_zone_id := 101
    urgency := 9/10
    resources_required := 1
    deadline_seconds := 600 }

/-- Sample decision system for the allocation witness. -/
noncomputable def c6System : SwarmDecisionSystem :=
  { objectives := [c6ObjA, c6ObjB], active_collective := none }

/-- Sample two-agent collective for the allocation witness. -/
noncomputable def c6Collective : SwarmCollective :=
  collectiveWith [SwarmAgent.new 1 SwarmAgentType.Drone,
    SwarmAgent.new 2 SwarmAgentType.Drone]

/-- Claim C6 witness: the allocation properties instantiated at a system
with two objectives (distinct ids, urgencies 3/10 and 9/10) and a collective
with two agents (ids 1 and 2). -/
theorem c6_allocate_agents_witness :
    c6System.prioritize_objectives.Pairwise (fun a b => b.urgency ≤ a.urgency) ∧
    c6System.prioritize_objectives.Perm c6System.objectives ∧
    (∀ o ∈ c6System.objectives,
      (c6System.allocate_agents c6Collective).countP
          (fun q => q.2.objective_id == o.objective_id) ≤
        o.resources_required) ∧
    ((c6System.allocate_agents c6Collective).map Prod.fst).Nodup ∧
    ∃ k, (c6System.allocate_agents c6Collective).map Prod.fst =
      (c6Collective.agents.map fun a => a.id).take k :=
  c6_allocate_agents c6System c6Collective
    (by simp [c6Collective, collectiveWith, SwarmCollective.new, SwarmAgent.new])
    (by simp [c6System, c6ObjA, c6ObjB])

/-- Sample malformed objective (required agent count zero). -/
def c8Objective : MissionObjective :=
  { objective_id := 1
    objective_type := ObjectiveType.Survey
    target_zone_id := 100
    urgency := 4/5
    resources_required := 0
    deadline_seconds := 3600 }

/-- Sample decision system holding only the malformed objective. -/
noncomputable def c8System : SwarmDecisionSystem :=
  { objectives := [c8Objective], active_collective := none }

/-- Sample one-agent collective for the malformed-objective claim. -/
noncomputable def c8Collective : SwarmCollective :=
  collectiveWith [SwarmAgent.new 1 SwarmAgentType.Drone]

/-- Claim C8, counterexample to the claim as stated: with one agent and an
objective requiring zero agents, mission_feasibility returns the plain
score 7/10 (the resources factor saturates at 1 because the f64 division by
zero gives plus infinity) and allocate_agents returns the empty allocation;
neither operation can fail — both return values computed from the malformed
objective, and no validation error exists anywhere in the crate. -/
theorem c8_no_error_counterexample :
    c8Objective.resources_required = 0 ∧
    c8System.mission_feasibility c8Collective c8Objective = 7/10 ∧
    c8System.allocate_agents c8Collective = [] := by
  refine ⟨rfl, ?_, ?_⟩
  · simp only [SwarmDecisionSystem.mission_feasibility, c8System, c8Collective,
      collectiveWith, SwarmCollective.new, c8Objective]
    norm_num
  · simp [SwarmDecisionSystem.allocate_agents,
      SwarmDecisionSystem.prioritize_objectives, allocateGo, c8System,
      c8Objective]

/-- Claim C8 (amended): the decision operations perform no validation of the
required agent count.  For a nonempty collective and a zero required count,
mission_feasibility returns min(2/5 + cohesion * 3/10 + arousal * 3/10, 1)
— the resources factor saturates at 1 via the f64 division by zero — and
allocate_agents simply assigns that objective zero agents; no error is
reported. -/
theorem c8_no_validation (sys : SwarmDecisionSystem) (c : SwarmCollective)
    (o : MissionObjective) (hne : c.agents.isEmpty = false)
    (hreq : o.resources_required = 0) (ho : o ∈ sys.objectives)
    (hids : (sys.objectives.map fun x => x.objective_id).Nodup) :
    sys.mission_feasibility c o =
      min (2/5 + c.coordination_state.group_cohesion * (3/10) +
        (c.coordination_state.average_arousal : ℝ) * (3/10)) 1 ∧
    ((sys.allocate_agents c).countP
      fun q => q.2.objective_id == o.objective_id) = 0 := by
  constructor
  · simp only [SwarmDecisionSystem.mission_feasibility, hne, hreq,
      Bool.false_eq_true, if_false, if_pos, one_mul]
  · have h := allocateGo_countP_le sys.prioritize_objectives
      (c.agents.map fun a => a.id) o
      ((((List.mergeSort_perm sys.objectives _).map
        fun x => x.objective_id).nodup_iff).2 hids)
      ((List.mergeSort_perm sys.objectives _).mem_iff.2 ho)
    rw [hreq] at h
    exact Nat.le_zero.mp h

/-- Claim C8 witness: the amended statement instantiated at the sample
system, the one-agent collective, and the zero-required objective. -/
theorem c8_no_validation_witness :
    c8System.mission_feasibility c8Collective c8Objective =
      min (2/5 + c8Collective.coordination_state.group_cohesion * (3/10) +
        (c8Collective.coordination_state.average_arousal : ℝ) * (3/10)) 1 ∧
    ((c8System.allocate_agents c8Collective).countP
      fun q => q.2.objective_id == c8Objective.objective_id) = 0 :=
  c8_no_validation c8System c8Collective c8Objective rfl rfl
    (by simp [c8System]) (by simp [c8System, c8Objective])

end Cyber
